import Mathlib

/-!
Verification of the Haversine great-circle distance defined in
`src/Chapter 14/Chapter 14.1.ipynb`.

The source defines

  EARTH_RADIUS = 6371.009

  def haversine(point1, point2):
      lon1, lat1 = [np.radians(x) for x in point1]
      lon2, lat2 = [np.radians(x) for x in point2]
      dlon = lon2 - lon1
      dlat = lat2 - lat1
      a = np.sin(dlat / 2) ** 2 + np.cos(lat1) * np.cos(lat2) * np.sin(dlon / 2) ** 2
      return 2 * EARTH_RADIUS * np.arcsin(np.sqrt(a))

We embed the real-number semantics of this function: points are pairs
`(lon, lat) : ℝ × ℝ` in degrees, and the numpy calls become the
corresponding functions on `ℝ`.
-/

namespace Chapter14

/-- Mean radius of the earth in km: the source's module constant
`EARTH_RADIUS = 6371.009`. -/
noncomputable def EARTH_RADIUS : ℝ := 6371.009

/-- `np.radians`: convert decimal degrees to radians. -/
noncomputable def radians (x : ℝ) : ℝ := x * (Real.pi / 180)

/-- The intermediate value `a` computed inside the source's `haversine`:
`a = np.sin(dlat / 2) ** 2 + np.cos(lat1) * np.cos(lat2) * np.sin(dlon / 2) ** 2`,
where `lon1, lat1, lon2, lat2` are the coordinates converted to radians and
`dlon = lon2 - lon1`, `dlat = lat2 - lat1`. -/
noncomputable def havA (point1 point2 : ℝ × ℝ) : ℝ :=
  let lon1 := radians point1.1
  let lat1 := radians point1.2
  let lon2 := radians point2.1
  let lat2 := radians point2.2
  let dlon := lon2 - lon1
  let dlat := lat2 - lat1
  Real.sin (dlat / 2) ^ 2 + Real.cos lat1 * Real.cos lat2 * Real.sin (dlon / 2) ^ 2

/-- The source's `haversine(point1, point2)`: great circle distance between two
points on the Earth, specified as `(lon, lat)` in degrees; result in km. -/
noncomputable def haversine (point1 point2 : ℝ × ℝ) : ℝ :=
  2 * EARTH_RADIUS * Real.arcsin (Real.sqrt (havA point1 point2))

/-- The spec's contract `distance(pointA, pointB, radius = 6371.009)`, written
from the spec's own words (degrees to radians, `Δλ = λ2 − λ1`, `Δφ = φ2 − φ1`,
`a = sin²(Δφ/2) + cos(φ1)·cos(φ2)·sin²(Δλ/2)`, `distance = 2·radius·arcsin(sqrt(a))`)
for comparison with the source's `haversine`, which exposes no radius argument. -/
noncomputable def spec_distance (pointA pointB : ℝ × ℝ) (radius : ℝ := 6371.009) : ℝ :=
  2 * radius *
    Real.arcsin (Real.sqrt
      (Real.sin ((radians pointB.2 - radians pointA.2) / 2) ^ 2 +
        Real.cos (radians pointA.2) * Real.cos (radians pointB.2) *
          Real.sin ((radians pointB.1 - radians pointA.1) / 2) ^ 2))

/-- `sin²` is unchanged when the order of a difference is swapped. -/
theorem sin_sq_half_sub_comm (a b : ℝ) :
    Real.sin ((a - b) / 2) ^ 2 = Real.sin ((b - a) / 2) ^ 2 := by
  rw [show (a - b) / 2 = -((b - a) / 2) by ring, Real.sin_neg]
  ring

/-- C1: for every pair of points `p1 = (lon1, lat1)` and `p2 = (lon2, lat2)` in
degrees, `haversine` returns exactly `2 * EARTH_RADIUS * arcsin (sqrt a)` where
the coordinates are first converted to radians and
`a = sin²((lat2-lat1)/2) + cos(lat1)·cos(lat2)·sin²((lon2-lon1)/2)`. -/
theorem haversine_eq_formula (p1 p2 : ℝ × ℝ) :
    haversine p1 p2 =
      2 * EARTH_RADIUS * Real.arcsin (Real.sqrt
        (Real.sin ((radians p2.2 - radians p1.2) / 2) ^ 2 +
          Real.cos (radians p1.2) * Real.cos (radians p2.2) *
            Real.sin ((radians p2.1 - radians p1.1) / 2) ^ 2)) := rfl

/-- C4: for every coordinate pair `x`, the distance from `x` to itself is
exactly 0. -/
theorem haversine_self (x : ℝ × ℝ) : haversine x x = 0 := by
  simp [haversine, havA]

/-- C5: `haversine` is symmetric in its two arguments. -/
theorem haversine_symm (p1 p2 : ℝ × ℝ) : haversine p1 p2 = haversine p2 p1 := by
  have key : havA p1 p2 = havA p2 p1 := by
    simp only [havA]
    rw [sin_sq_half_sub_comm (radians p2.2) (radians p1.2),
      sin_sq_half_sub_comm (radians p2.1) (radians p1.1),
      mul_comm (Real.cos (radians p1.2)) (Real.cos (radians p2.2))]
  rw [haversine, haversine, key]

/-- C6: for all points `p1` and `p2`, with no restriction on the coordinates,
`haversine p1 p2` is nonnegative. -/
theorem haversine_nonneg (p1 p2 : ℝ × ℝ) : 0 ≤ haversine p1 p2 := by
  have h1 : 0 ≤ Real.arcsin (Real.sqrt (havA p1 p2)) :=
    Real.arcsin_nonneg.mpr (Real.sqrt_nonneg _)
  have h2 : (0 : ℝ) ≤ 2 * EARTH_RADIUS := by norm_num [EARTH_RADIUS]
  exact mul_nonneg h2 h1

/-- Unfolded form of `havA` with the local variables substituted away. -/
theorem havA_def (p1 p2 : ℝ × ℝ) :
    havA p1 p2 =
      Real.sin ((radians p2.2 - radians p1.2) / 2) ^ 2 +
        Real.cos (radians p1.2) * Real.cos (radians p2.2) *
          Real.sin ((radians p2.1 - radians p1.1) / 2) ^ 2 := rfl

/-- A latitude whose absolute value is at most 90 degrees has a nonnegative
cosine once converted to radians. -/
theorem cos_radians_nonneg {d : ℝ} (h1 : -90 ≤ d) (h2 : d ≤ 90) :
    0 ≤ Real.cos (radians d) := by
  have hc : (0 : ℝ) ≤ Real.pi / 180 := by positivity
  apply Real.cos_nonneg_of_neg_pi_div_two_le_of_le
  · calc -(Real.pi / 2) = -90 * (Real.pi / 180) := by ring
      _ ≤ d * (Real.pi / 180) := mul_le_mul_of_nonneg_right h1 hc
  · calc d * (Real.pi / 180) ≤ 90 * (Real.pi / 180) := mul_le_mul_of_nonneg_right h2 hc
      _ = Real.pi / 2 := by ring

/-- The haversine intermediate expression is nonnegative when both latitude
cosines are nonnegative. -/
theorem hav_expr_nonneg (φ1 φ2 x : ℝ) (hc1 : 0 ≤ Real.cos φ1) (hc2 : 0 ≤ Real.cos φ2) :
    0 ≤ Real.sin ((φ2 - φ1) / 2) ^ 2 + Real.cos φ1 * Real.cos φ2 * Real.sin x ^ 2 :=
  add_nonneg (sq_nonneg _) (mul_nonneg (mul_nonneg hc1 hc2) (sq_nonneg _))

/-- The haversine intermediate expression is at most 1 when both latitude
cosines are nonnegative. -/
theorem hav_expr_le_one (φ1 φ2 x : ℝ) (hc1 : 0 ≤ Real.cos φ1) (hc2 : 0 ≤ Real.cos φ2) :
    Real.sin ((φ2 - φ1) / 2) ^ 2 + Real.cos φ1 * Real.cos φ2 * Real.sin x ^ 2 ≤ 1 := by
  have hs : Real.sin x ^ 2 ≤ 1 := Real.sin_sq_le_one x
  have hprod : Real.cos φ1 * Real.cos φ2 * Real.sin x ^ 2 ≤ Real.cos φ1 * Real.cos φ2 := by
    calc Real.cos φ1 * Real.cos φ2 * Real.sin x ^ 2
        ≤ Real.cos φ1 * Real.cos φ2 * 1 :=
          mul_le_mul_of_nonneg_left hs (mul_nonneg hc1 hc2)
      _ = Real.cos φ1 * Real.cos φ2 := by ring
  have e1 : Real.sin ((φ2 - φ1) / 2) ^ 2 = 1 / 2 - Real.cos (φ2 - φ1) / 2 := by
    have h := Real.cos_sq ((φ2 - φ1) / 2)
    have h2 := Real.sin_sq_add_cos_sq ((φ2 - φ1) / 2)
    rw [show 2 * ((φ2 - φ1) / 2) = φ2 - φ1 by ring] at h
    linarith
  have e2 : Real.cos (φ2 - φ1) = Real.cos φ2 * Real.cos φ1 + Real.sin φ2 * Real.sin φ1 :=
    Real.cos_sub _ _
  have e3 : Real.cos (φ2 + φ1) = Real.cos φ2 * Real.cos φ1 - Real.sin φ2 * Real.sin φ1 :=
    Real.cos_add _ _
  have e4 : Real.cos (φ2 + φ1) ≤ 1 := Real.cos_le_one _
  nlinarith [hprod, e1, e2, e3, e4]

/-- C3: for longitudes in `[-180, 180]` and latitudes in `[-90, 90]`, the
intermediate value `a` lies in `[0, 1]`; consequently `sqrt a` lies in `[0, 1]`
and `arcsin` is applied inside its domain, where it is a genuine inverse of
`sin` (so the computation has no domain error: the embedded `haversine` is a
total function built from these pieces). -/
theorem havA_in_unit_interval (lon1 lat1 lon2 lat2 : ℝ)
    (h1 : -180 ≤ lon1) (h2 : lon1 ≤ 180) (h3 : -90 ≤ lat1) (h4 : lat1 ≤ 90)
    (h5 : -180 ≤ lon2) (h6 : lon2 ≤ 180) (h7 : -90 ≤ lat2) (h8 : lat2 ≤ 90) :
    0 ≤ havA (lon1, lat1) (lon2, lat2) ∧ havA (lon1, lat1) (lon2, lat2) ≤ 1 ∧
      Real.sqrt (havA (lon1, lat1) (lon2, lat2)) ≤ 1 ∧
      Real.sin (Real.arcsin (Real.sqrt (havA (lon1, lat1) (lon2, lat2)))) =
        Real.sqrt (havA (lon1, lat1) (lon2, lat2)) := by
  have hc1 : 0 ≤ Real.cos (radians lat1) := cos_radians_nonneg h3 h4
  have hc2 : 0 ≤ Real.cos (radians lat2) := cos_radians_nonneg h7 h8
  have e : havA (lon1, lat1) (lon2, lat2) =
      Real.sin ((radians lat2 - radians lat1) / 2) ^ 2 +
        Real.cos (radians lat1) * Real.cos (radians lat2) *
          Real.sin ((radians lon2 - radians lon1) / 2) ^ 2 := rfl
  have ha0 : 0 ≤ havA (lon1, lat1) (lon2, lat2) := by
    rw [e]; exact hav_expr_nonneg _ _ _ hc1 hc2
  have ha1 : havA (lon1, lat1) (lon2, lat2) ≤ 1 := by
    rw [e]; exact hav_expr_le_one _ _ _ hc1 hc2
  have hs1 : Real.sqrt (havA (lon1, lat1) (lon2, lat2)) ≤ 1 :=
    Real.sqrt_le_one.mpr ha1
  have hs0 : 0 ≤ Real.sqrt (havA (lon1, lat1) (lon2, lat2)) := Real.sqrt_nonneg _
  exact ⟨ha0, ha1, hs1, Real.sin_arcsin (by linarith) hs1⟩

/-- Witness for C3 at the concrete input `(0, 0)`, `(0, 0)`. -/
theorem havA_in_unit_interval_witness :
    0 ≤ havA (0, 0) (0, 0) ∧ havA (0, 0) (0, 0) ≤ 1 ∧
      Real.sqrt (havA (0, 0) (0, 0)) ≤ 1 ∧
      Real.sin (Real.arcsin (Real.sqrt (havA (0, 0) (0, 0)))) =
        Real.sqrt (havA (0, 0) (0, 0)) :=
  havA_in_unit_interval 0 0 0 0 (by norm_num) (by norm_num) (by norm_num) (by norm_num)
    (by norm_num) (by norm_num) (by norm_num) (by norm_num)

/-- The intermediate value at the antipodal pair `(0, 0)`, `(180, 0)` is 1. -/
theorem havA_antipodal : havA (0, 0) (180, 0) = 1 := by
  have h180 : radians 180 = Real.pi := by unfold radians; ring
  have h0 : radians 0 = 0 := by unfold radians; ring
  simp [havA, h0, h180, Real.sin_pi_div_two]

/-- C7: the distance between the antipodal points `(0, 0)` and `(180, 0)` is
exactly `π` times the radius constant, and no pair of points has a larger
distance. -/
theorem haversine_antipodal_max :
    haversine (0, 0) (180, 0) = Real.pi * EARTH_RADIUS ∧
      ∀ p1 p2 : ℝ × ℝ, haversine p1 p2 ≤ Real.pi * EARTH_RADIUS := by
  constructor
  · rw [haversine, havA_antipodal, Real.sqrt_one, Real.arcsin_one]
    ring
  · intro p1 p2
    have h1 : Real.arcsin (Real.sqrt (havA p1 p2)) ≤ Real.pi / 2 :=
      Real.arcsin_le_pi_div_two _
    have h2 : (0 : ℝ) ≤ 2 * EARTH_RADIUS := by norm_num [EARTH_RADIUS]
    calc haversine p1 p2 ≤ 2 * EARTH_RADIUS * (Real.pi / 2) :=
          mul_le_mul_of_nonneg_left h1 h2
      _ = Real.pi * EARTH_RADIUS := by ring

/-- For `t ∈ [0, π/2]`, the composite `arcsin (sqrt (sin t ^ 2))` collapses
back to `t`. -/
theorem arcsin_sqrt_sin_sq {t : ℝ} (h0 : 0 ≤ t) (h1 : t ≤ Real.pi / 2) :
    Real.arcsin (Real.sqrt (Real.sin t ^ 2)) = t := by
  have hs : 0 ≤ Real.sin t :=
    Real.sin_nonneg_of_nonneg_of_le_pi h0 (by linarith [Real.pi_pos])
  rw [Real.sqrt_sq hs, Real.arcsin_sin (by linarith [Real.pi_pos]) h1]

/-- Closed form for a pure northward displacement of `d ∈ [0, 180]` degrees of
latitude from the origin. -/
theorem haversine_lat_deg (d : ℝ) (h0 : 0 ≤ d) (h1 : d ≤ 180) :
    haversine (0, 0) (0, d) = EARTH_RADIUS * radians d := by
  have hz : radians 0 = 0 := by unfold radians; ring
  have ha : havA (0, 0) (0, d) = Real.sin (radians d / 2) ^ 2 := by
    simp [havA, hz]
  have hr0 : 0 ≤ radians d / 2 := by
    unfold radians; positivity
  have hr1 : radians d / 2 ≤ Real.pi / 2 := by
    have hc : (0 : ℝ) ≤ Real.pi / 360 := by positivity
    calc radians d / 2 = d * (Real.pi / 360) := by unfold radians; ring
      _ ≤ 180 * (Real.pi / 360) := mul_le_mul_of_nonneg_right h1 hc
      _ = Real.pi / 2 := by ring
  rw [haversine, ha, arcsin_sqrt_sin_sq hr0 hr1]
  ring

/-- Closed form for a pure eastward displacement of `d ∈ [0, 180]` degrees of
longitude from the origin on the equator. -/
theorem haversine_lon_deg (d : ℝ) (h0 : 0 ≤ d) (h1 : d ≤ 180) :
    haversine (0, 0) (d, 0) = EARTH_RADIUS * radians d := by
  have hz : radians 0 = 0 := by unfold radians; ring
  have ha : havA (0, 0) (d, 0) = Real.sin (radians d / 2) ^ 2 := by
    simp [havA, hz]
  have hr0 : 0 ≤ radians d / 2 := by
    unfold radians; positivity
  have hr1 : radians d / 2 ≤ Real.pi / 2 := by
    have hc : (0 : ℝ) ≤ Real.pi / 360 := by positivity
    calc radians d / 2 = d * (Real.pi / 360) := by unfold radians; ring
      _ ≤ 180 * (Real.pi / 360) := mul_le_mul_of_nonneg_right h1 hc
      _ = Real.pi / 2 := by ring
  rw [haversine, ha, arcsin_sqrt_sin_sq hr0 hr1]
  ring

/-- C8: one degree of latitude from the origin and one degree of longitude on
the equator both give exactly `EARTH_RADIUS * (π / 180)` (≈ 111.19 km). -/
theorem haversine_one_degree :
    haversine (0, 0) (0, 1) = EARTH_RADIUS * (Real.pi / 180) ∧
      haversine (0, 0) (1, 0) = EARTH_RADIUS * (Real.pi / 180) := by
  constructor
  · rw [haversine_lat_deg 1 (by norm_num) (by norm_num)]
    unfold radians; ring
  · rw [haversine_lon_deg 1 (by norm_num) (by norm_num)]
    unfold radians; ring

/-- C9: ten degrees of latitude is strictly farther from the origin than one
degree of latitude. -/
theorem haversine_ten_gt_one :
    haversine (0, 0) (0, 10) > haversine (0, 0) (0, 1) := by
  rw [haversine_lat_deg 10 (by norm_num) (by norm_num),
    haversine_lat_deg 1 (by norm_num) (by norm_num)]
  unfold radians EARTH_RADIUS
  nlinarith [Real.pi_pos]

/-- C10: adding 360 degrees to the longitude of the first argument leaves the
computed distance unchanged, because the formula sees longitudes only through
`sin²` of half their difference in radians. -/
theorem haversine_lon_plus_360 (lon1 lat1 lon2 lat2 : ℝ) :
    haversine (lon1 + 360, lat1) (lon2, lat2) = haversine (lon1, lat1) (lon2, lat2) := by
  have key : havA (lon1 + 360, lat1) (lon2, lat2) = havA (lon1, lat1) (lon2, lat2) := by
    rw [havA_def, havA_def]
    have h1 : radians (lon1 + 360) = radians lon1 + 2 * Real.pi := by
      unfold radians; ring
    have h2 : (radians lon2 - (radians lon1 + 2 * Real.pi)) / 2 =
        (radians lon2 - radians lon1) / 2 - Real.pi := by ring
    rw [h1, h2, Real.sin_sub_pi]
    ring
  rw [haversine, haversine, key]

/-- The source's `haversine` agrees with the spec's contract evaluated at the
default radius 6371.009. -/
theorem haversine_eq_spec_default (p q : ℝ × ℝ) :
    haversine p q = spec_distance p q 6371.009 := rfl

/-- C2 counterexample: the source's `haversine` takes no radius argument, so a
caller cannot obtain the distance on a sphere of radius 1: at the antipodal
pair `(0, 0)`, `(180, 0)` the code's value differs from the spec's contract
evaluated at radius 1. -/
theorem haversine_ignores_radius :
    haversine (0, 0) (180, 0) ≠ spec_distance (0, 0) (180, 0) 1 := by
  have hspec : spec_distance (0, 0) (180, 0) 1 =
      2 * 1 * Real.arcsin (Real.sqrt (havA (0, 0) (180, 0))) := rfl
  rw [haversine, hspec, havA_antipodal, Real.sqrt_one, Real.arcsin_one]
  unfold EARTH_RADIUS
  intro h
  nlinarith [Real.pi_pos, h]

/-- C2 amended: `haversine` exposes no radius parameter; its result always uses
the fixed module constant `EARTH_RADIUS = 6371.009` km, so for every pair of
points it equals the spec's contract at the default radius 6371.009 and is
expressed in kilometers. -/
theorem haversine_fixed_default_radius :
    (∀ p q : ℝ × ℝ, haversine p q = spec_distance p q 6371.009) ∧
      EARTH_RADIUS = 6371.009 :=
  ⟨fun p q => haversine_eq_spec_default p q, rfl⟩

end Chapter14
